import Mathlib

/-!
Shallow embedding of the mail_agent employee-records backend.

Source files embedded:
- src/app/routers/auth.py   (password hashing, authentication, JWT issue and validation)
- src/app/routers/employees.py (employee CRUD handlers, welcome and bulk email dispatch)
- src/app/models.py         (Admin and Employee tables, uniqueness and check constraints)
- src/app/main.py           (string id-scheme revision: generate_employee_id)

External collaborators (bcrypt, SHA-256, the SQL engine comparison on strings,
the generative text service and the SMTP transport) are modelled as abstract
parameters or outcome values; everything the handlers themselves do is
translated directly from the Python source.
-/

namespace MailAgent

/-- HTTP error carried by a raised HTTPException: status code plus detail string. -/
structure HTTPError where
  statusCode : Nat
  detail : String
deriving Repr, DecidableEq

/-- Admin row from src/app/models.py: integer primary key, unique name,
unique email, bcrypt hash. The emp_code column is unused by the handlers. -/
structure Admin where
  id : Int
  name : String
  email : String
  hashed_password : String
deriving Repr, DecidableEq

/-! ## Password hashing (src/app/routers/auth.py lines 54-63)

bcrypt and SHA-256 are external primitives; they appear as function
parameters. The contract assumed of bcrypt is only that verification
succeeds on inputs within its 72-byte bound, and of SHA-256 hexdigest
only that its output (64 ASCII characters) fits within that bound. -/

/-- hash_password from auth.py: condense the password through SHA-256 hexdigest
when its UTF-8 encoding exceeds 72 bytes, then bcrypt-hash. -/
def hash_password (bcryptHash : String → String) (sha256hex : String → String)
    (password : String) : String :=
  let p := if 72 < password.utf8ByteSize then sha256hex password else password
  bcryptHash p

/-- verify_password from auth.py: apply the same condensation branch, then
bcrypt-verify against the stored hash. -/
def verify_password (bcryptVerify : String → String → Bool) (sha256hex : String → String)
    (plain hashed : String) : Bool :=
  let p := if 72 < plain.utf8ByteSize then sha256hex plain else plain
  bcryptVerify p hashed

/-! ## Authentication (src/app/routers/auth.py lines 66-72) -/

/-- authenticate_admin from auth.py: look up the first admin matching the name;
return none when absent, none when the password check fails, the user otherwise.
The password check is abstracted as the verify parameter (verify_password
applied to the stored hash). -/
def authenticate_admin (admins : List Admin) (name password : String)
    (verify : String → String → Bool) : Option Admin :=
  match admins.find? (fun a => a.name == name) with
  | none => none
  | some u => if verify password u.hashed_password then some u else none

/-! ## Token issue and validation (src/app/routers/auth.py lines 75-81, 136-156) -/

/-- ACCESS_TOKEN_EXPIRE_MINUTES from auth.py line 24. -/
def ACCESS_TOKEN_EXPIRE_MINUTES : Int := 30

/-- Decoded JWT payload: optional sub and id claims plus absolute expiry
in unix seconds. create_access_token always sets all three; an arbitrary
presented token may miss sub or id. -/
structure TokenPayload where
  sub : Option String
  idClaim : Option Int
  exp : Int
deriving Repr, DecidableEq

/-- A presented bearer token: its payload together with whether its
signature verifies against SECRET_KEY. -/
structure SignedToken where
  payload : TokenPayload
  sigValid : Bool
deriving Repr, DecidableEq

/-- create_access_token from auth.py: embeds sub, id and expiry
now + expires_delta; the caller passes timedelta(minutes=30). -/
def create_access_token (username : String) (user_id : Int) (now : Int) : TokenPayload :=
  { sub := some username, idClaim := some user_id,
    exp := now + ACCESS_TOKEN_EXPIRE_MINUTES * 60 }

/-- Failures raised by jose jwt.decode: bad signature, or expiry in the past.
ExpiredSignatureError is a subclass of JWTError, so both are caught by the
except JWTError branch of get_current_user. -/
inductive JWTError
  | invalidSignature
  | expired
deriving Repr, DecidableEq

/-- jwt.decode as used in get_current_user: reject an invalid signature,
then reject when exp is strictly before the current time (jose raises
ExpiredSignatureError when exp < now with zero leeway). -/
def jwt_decode (t : SignedToken) (now : Int) : Except JWTError TokenPayload :=
  if t.sigValid = false then Except.error JWTError.invalidSignature
  else if t.payload.exp < now then Except.error JWTError.expired
  else Except.ok t.payload

/-- Admin lookup step of get_current_user (auth.py lines 151-154): resolve
the id claim against the admin table; absence gives 401 User not found,
never a 404. -/
def lookup_admin (admins : List Admin) (uid : Int) : Except HTTPError Admin :=
  match admins.find? (fun a => a.id == uid) with
  | none => Except.error { statusCode := 401, detail := "User not found" }
  | some u => Except.ok u

/-- Claims check step of get_current_user (auth.py lines 142-146): both the
sub and the id claim must be present, 401 otherwise. -/
def claims_check (payload : TokenPayload) (admins : List Admin) : Except HTTPError Admin :=
  match payload.sub, payload.idClaim with
  | some _, some uid => lookup_admin admins uid
  | _, _ => Except.error { statusCode := 401, detail := "Could not validate user" }

/-- get_current_user from auth.py lines 136-156: decode the token (any
JWTError gives 401), require both sub and id claims, then resolve the
admin by id. -/
def get_current_user (t : SignedToken) (now : Int) (admins : List Admin) :
    Except HTTPError Admin :=
  match jwt_decode t now with
  | Except.error _ => Except.error { statusCode := 401, detail := "Could not validate user" }
  | Except.ok payload => claims_check payload admins

/-- Status code of a get_current_user outcome, none when it succeeds. -/
def errStatus (r : Except HTTPError Admin) : Option Nat :=
  match r with
  | Except.error e => some e.statusCode
  | Except.ok _ => none

/-! ## Employee table (src/app/models.py plus the alembic email column)

The Employee model has an integer primary key, a unique phone_no column,
a salary CheckConstraint of 10000 to 500000 inclusive, and (after the
alembic revision 0f0981c6fd25) a nullable email column with no uniqueness
constraint. The router uses an email attribute, so the row carries it. -/

/-- Employee row: models.py columns plus the migrated email column. -/
structure Employee where
  id : Int
  name : String
  designation : String
  salary : Int
  phone_no : String
  address : String
  email : String
  is_active : Bool
deriving Repr, DecidableEq

/-- Database state: the employee table plus the next auto-increment
primary key value. -/
structure DB where
  employees : List Employee
  nextId : Int
deriving Repr, DecidableEq

/-- The salary_range CheckConstraint of models.py: salary between 10000
and 500000 inclusive, enforced by the database at commit time. -/
def salaryCheckConstraint (s : Int) : Bool :=
  decide (10000 ≤ s) && decide (s ≤ 500000)

/-! ## Request validation (src/app/routers/employees.py lines 42-49)

EmployeeRequest pydantic fields: name and designation length 2..50,
salary strictly greater than 10000 and strictly less than 500000
(gt and lt, not ge and le), phone_no length 10..15, address length 5..255,
email of type EmailStr (format validation performed by the external
pydantic email validator, not modelled; no claim depends on it), and
is_active defaulting to true. -/

/-- EmployeeRequest from routers/employees.py. -/
structure EmployeeRequest where
  name : String
  designation : String
  salary : Int
  phone_no : String
  address : String
  email : String
  is_active : Bool := true
deriving Repr, DecidableEq

/-- The pydantic field constraints of EmployeeRequest, checked by the
framework before any handler body runs. -/
def validEmployeeRequest (r : EmployeeRequest) : Bool :=
  decide (2 ≤ r.name.length) && decide (r.name.length ≤ 50) &&
  decide (2 ≤ r.designation.length) && decide (r.designation.length ≤ 50) &&
  decide (10000 < r.salary) && decide (r.salary < 500000) &&
  decide (10 ≤ r.phone_no.length) && decide (r.phone_no.length ≤ 15) &&
  decide (5 ≤ r.address.length) && decide (r.address.length ≤ 255)

/-! ## Employee create and update handlers (src/app/routers/employees.py) -/

/-- Outcome of the create handler, each constructor carrying the table
state after the request. validationError is the pydantic 422 rejection,
conflictEmail the explicit 400 raised on a duplicate email, and
integrityError the uncaught database IntegrityError (an HTTP 500) raised
at commit when the unique phone_no constraint or the salary check
constraint is violated. -/
inductive CreateOutcome
  | validationError (db : DB)
  | conflictEmail (db : DB)
  | integrityError (db : DB)
  | ok (db : DB) (created : Employee)
deriving Repr, DecidableEq

/-- HTTP status code of a create outcome. -/
def CreateOutcome.statusCode : CreateOutcome → Nat
  | validationError _ => 422
  | conflictEmail _ => 400
  | integrityError _ => 500
  | ok _ _ => 201

/-- A Conflict-class response in the sense of the error taxonomy: a client
error signalling a uniqueness violation, status 400 or 409. -/
def isConflictClass (code : Nat) : Bool := code == 400 || code == 409

/-- create_employee from routers/employees.py lines 137-158: pydantic
validation, then the explicit duplicate-email check raising 400, then
insert and commit; the commit raises an uncaught IntegrityError when the
unique phone_no constraint or the salary check constraint is violated. -/
def create_employee (db : DB) (r : EmployeeRequest) : CreateOutcome :=
  if validEmployeeRequest r = false then CreateOutcome.validationError db
  else if db.employees.any (fun e => e.email == r.email) then CreateOutcome.conflictEmail db
  else if db.employees.any (fun e => e.phone_no == r.phone_no) ||
      !(salaryCheckConstraint r.salary) then CreateOutcome.integrityError db
  else
    let newEmp : Employee :=
      { id := db.nextId, name := r.name, designation := r.designation,
        salary := r.salary, phone_no := r.phone_no, address := r.address,
        email := r.email, is_active := r.is_active }
    CreateOutcome.ok { employees := db.employees ++ [newEmp], nextId := db.nextId + 1 } newEmp

/-- Outcome of the update handler, each constructor carrying the table
state after the request. -/
inductive UpdateOutcome
  | validationError (db : DB)
  | notFound (db : DB)
  | integrityError (db : DB)
  | ok (db : DB) (updated : Employee)
deriving Repr, DecidableEq

/-- update_employee from routers/employees.py lines 160-181: pydantic
validation, 404 when the id is absent, then setattr of every request
field onto the row and commit; the commit raises an uncaught
IntegrityError when the new phone_no duplicates a different row or the
salary check constraint is violated. No duplicate-email check exists on
this path and the email column carries no uniqueness constraint. -/
def update_employee (db : DB) (id : Int) (r : EmployeeRequest) : UpdateOutcome :=
  if validEmployeeRequest r = false then UpdateOutcome.validationError db
  else match db.employees.find? (fun e => e.id == id) with
    | none => UpdateOutcome.notFound db
    | some emp =>
      let updated : Employee :=
        { id := emp.id, name := r.name, designation := r.designation,
          salary := r.salary, phone_no := r.phone_no, address := r.address,
          email := r.email, is_active := r.is_active }
      if db.employees.any (fun e => e.id != id && e.phone_no == r.phone_no) ||
          !(salaryCheckConstraint r.salary) then UpdateOutcome.integrityError db
      else UpdateOutcome.ok
        { db with employees := db.employees.map (fun e => if e.id == id then updated else e) }
        updated

/-! ## Notification dispatch (src/app/routers/employees.py lines 65-122, 231-265)

The generative text service and the SMTP transport are external; their
outcomes enter as parameters. A call trace records every external call
the background work performs, so that claims about which calls are made
can be stated. -/

/-- One external call made by background email work. -/
inductive ExtCall
  | genCall (instruction : String)
  | sendCall (toAddr subject : String)
deriving Repr, DecidableEq

/-- send_welcome_email from routers/employees.py lines 104-122: build the
instruction, generate the body, send one mail; the whole body sits in a
try block whose except branch only prints, so the function always returns
normally. Result: the external calls made and the log lines printed. -/
def send_welcome_email (genOutcome : Except String String)
    (sendOutcome : Except String Unit) (e : Employee) : List ExtCall × List String :=
  let instruction :=
    "The employee name is " ++ e.name ++ ". They have joined MR Developers as a " ++
    e.designation ++ ". Make the email welcoming, motivational, and encouraging. " ++
    "Emphasize teamwork, excellence, innovation, and future growth within the organization."
  match genOutcome with
  | Except.error msg => ([ExtCall.genCall instruction], ["Email failed: " ++ msg])
  | Except.ok _body =>
    match sendOutcome with
    | Except.error msg =>
      ([ExtCall.genCall instruction, ExtCall.sendCall e.email "Welcome to the Company"],
       ["Email failed: " ++ msg])
    | Except.ok _ =>
      ([ExtCall.genCall instruction, ExtCall.sendCall e.email "Welcome to the Company"], [])

/-- create_employee followed by the background welcome-email task that
create schedules via background_tasks.add_task: the task runs only after
the handler has returned, and only when the create succeeded. -/
def create_then_notify (db : DB) (r : EmployeeRequest)
    (genOutcome : Except String String) (sendOutcome : Except String Unit) :
    CreateOutcome × (List ExtCall × List String) :=
  match create_employee db r with
  | CreateOutcome.ok db2 e => (CreateOutcome.ok db2 e, send_welcome_email genOutcome sendOutcome e)
  | o => (o, ([], []))

/-- The per-recipient loop of background_bulk_task (routers/employees.py
lines 250-258): each send sits in its own try block whose except branch
only prints, so the loop continues past any failure. Result: the external
calls made and the log lines printed. -/
def bulk_send_loop (sendOutcome : String → Except String Unit) (subject : String) :
    List Employee → List ExtCall × List String
  | [] => ([], [])
  | emp :: rest =>
    let tail := bulk_send_loop sendOutcome subject rest
    match sendOutcome emp.email with
    | Except.error msg =>
      (ExtCall.sendCall emp.email subject :: tail.1,
       ("Failed to send to " ++ emp.email ++ ": " ++ msg) :: tail.2)
    | Except.ok _ =>
      (ExtCall.sendCall emp.email subject :: tail.1, tail.2)

/-- background_bulk_task from routers/employees.py lines 246-262: one
shared content-generation call, then the per-recipient send loop; a
generation failure is swallowed with a log line and no sends happen. -/
def background_bulk_task (genOutcome : Except String String)
    (sendOutcome : String → Except String Unit)
    (subject instruction : String) (emps : List Employee) : List ExtCall × List String :=
  match genOutcome with
  | Except.error msg =>
    ([ExtCall.genCall instruction], ["Bulk email generation failed: " ++ msg])
  | Except.ok _body =>
    let loopResult := bulk_send_loop sendOutcome subject emps
    (ExtCall.genCall instruction :: loopResult.1, loopResult.2)

/-- Synchronous response of the send_bulk_email handler. -/
inductive BulkResponse
  | unauthorized
  | notFound
  | accepted (message : String)
deriving Repr, DecidableEq

/-- send_bulk_email handler body from routers/employees.py lines 231-265:
401 when the admin dependency is absent, 404 when no employee is active,
otherwise the accepted message plus the recipient list handed to the
scheduled background task (empty list means no task was scheduled). -/
def send_bulk_email (db : DB) (admin : Option Admin) : BulkResponse × List Employee :=
  match admin with
  | none => (BulkResponse.unauthorized, [])
  | some _ =>
    let emps := db.employees.filter (fun e => e.is_active)
    if emps.isEmpty then (BulkResponse.notFound, [])
    else
      (BulkResponse.accepted
        ("Bulk email is being sent to " ++ toString emps.length ++ " employees"), emps)

/-- The handler followed by the background task it scheduled, which runs
after the response is returned; when the handler raised, no task runs and
no external call is made. -/
def run_send_bulk_email (db : DB) (admin : Option Admin)
    (genOutcome : Except String String) (sendOutcome : String → Except String Unit)
    (subject instruction : String) : BulkResponse × (List ExtCall × List String) :=
  let handler := send_bulk_email db admin
  match handler.1 with
  | BulkResponse.accepted m =>
    (BulkResponse.accepted m,
     background_bulk_task genOutcome sendOutcome subject instruction handler.2)
  | r => (r, ([], []))

/-! ## String id-scheme revision (src/app/main.py lines 31-37)

In this revision the employee id is a string of the form M followed by
five zero-padded digits; generate_employee_id orders the table by id
descending, takes the first row, parses the suffix after the first
character with int, adds one, and formats with f-string 05d padding.
The database string ordering is lexicographic. int raising ValueError on
a malformed suffix is modelled by Option none. -/

/-- Lexicographically maximal id, as order_by desc plus first computes it.
The comparison is the lexicographic order on the character sequences,
which is exactly the String less-than order. -/
def maxOfIds (ids : List String) : Option String :=
  ids.foldl (fun acc s =>
    match acc with
    | none => some s
    | some m => if m.data < s.data then some s else some m) none

/-- Python 05d formatting of a natural number: pad the decimal digits with
leading zeros to a minimum width of five. -/
def zeroPad5 (n : Nat) : String :=
  String.mk (List.replicate (5 - (toString n).length) '0') ++ toString n

/-- Decimal value of one digit character, none for anything else. -/
def digitVal (c : Char) : Option Nat :=
  if decide ('0' ≤ c) && decide (c ≤ '9') then some (c.toNat - '0'.toNat) else none

/-- Accumulating decimal parse of a character list. -/
def parseNatAux (acc : Nat) : List Char → Option Nat
  | [] => some acc
  | c :: cs =>
    match digitVal c with
    | none => none
    | some d => parseNatAux (acc * 10 + d) cs

/-- The Python int builtin applied to a string of decimal digits: the
numeric value when the string is nonempty and all digits (leading zeros
allowed), none (a raised ValueError) otherwise. Signs, whitespace and
digit-group underscores, which the claims never touch, are not modelled. -/
def pyInt (s : String) : Option Nat :=
  match s.data with
  | [] => none
  | cs => parseNatAux 0 cs

/-- generate_employee_id from src/app/main.py lines 31-37: take the
maximal id, slice off its first character, parse the suffix with int,
add one and format as M plus 05d. -/
def generate_employee_id (ids : List String) : Option String :=
  match maxOfIds ids with
  | none => some "M00001"
  | some last => (pyInt (String.mk (last.data.drop 1))).map (fun k => "M" ++ zeroPad5 (k + 1))

/-! ## Concrete fixtures

Named concrete rows, requests and table states used by the concrete
instances of the theorems below. -/

/-- A valid create request for the employee Asha. -/
def ashaReq : EmployeeRequest :=
  { name := "Asha", designation := "Engineer", salary := 60000,
    phone_no := "9998887777", address := "12 Main Street", email := "asha@x.com",
    is_active := true }

/-- The committed row the create of ashaReq produces on an empty table. -/
def ashaRow : Employee :=
  { id := 1, name := "Asha", designation := "Engineer", salary := 60000,
    phone_no := "9998887777", address := "12 Main Street", email := "asha@x.com",
    is_active := true }

/-- The empty employee table. -/
def dbEmpty : DB := { employees := [], nextId := 1 }

/-- The table holding only the row for Asha. -/
def dbAsha : DB := { employees := [ashaRow], nextId := 2 }

/-- A valid create request sharing the phone number of ashaRow but
carrying a fresh email. -/
def raviPhoneReq : EmployeeRequest :=
  { name := "Ravi", designation := "Manager", salary := 70000,
    phone_no := "9998887777", address := "34 Oak Avenue", email := "ravi@x.com",
    is_active := true }

/-- A valid create request sharing the email of ashaRow but carrying a
fresh phone number. -/
def raviEmailReq : EmployeeRequest :=
  { name := "Ravi", designation := "Manager", salary := 70000,
    phone_no := "1112223333", address := "34 Oak Avenue", email := "asha@x.com",
    is_active := true }

/-- A second committed row, distinct from ashaRow in all unique fields. -/
def raviRow : Employee :=
  { id := 2, name := "Ravi", designation := "Manager", salary := 70000,
    phone_no := "1112223333", address := "34 Oak Avenue", email := "ravi@x.com",
    is_active := true }

/-- The table holding the rows for Asha and Ravi. -/
def dbTwo : DB := { employees := [ashaRow, raviRow], nextId := 3 }

/-- An update request for row 2 whose email duplicates the email of
row 1. -/
def raviUpdateDupEmail : EmployeeRequest :=
  { name := "Ravi", designation := "Manager", salary := 70000,
    phone_no := "1112223333", address := "34 Oak Avenue", email := "asha@x.com",
    is_active := true }

/-- Row 2 after the duplicate-email update has been applied. -/
def raviRowDupEmail : Employee :=
  { id := 2, name := "Ravi", designation := "Manager", salary := 70000,
    phone_no := "1112223333", address := "34 Oak Avenue", email := "asha@x.com",
    is_active := true }

/-- The stored administrator. -/
def mayurAdmin : Admin :=
  { id := 1, name := "mayur", email := "m@x.com", hashed_password := "H" }

/-- An employee row with is_active false. -/
def inactiveRow : Employee :=
  { id := 1, name := "Asha", designation := "Engineer", salary := 60000,
    phone_no := "9998887777", address := "12 Main Street", email := "asha@x.com",
    is_active := false }

/-! ## Theorems -/

/-- Helper: a successful jwt_decode returns exactly the token payload. -/
theorem jwt_decode_ok_payload (t : SignedToken) (now : Int) (p : TokenPayload)
    (h : jwt_decode t now = Except.ok p) : p = t.payload := by
  unfold jwt_decode at h
  split at h
  · exact absurd h (by simp)
  · split at h
    · exact absurd h (by simp)
    · exact (Except.ok.inj h).symm

/-- Helper: every failure of the claims check and admin resolution carries
status 401. -/
theorem claims_check_error_401 (payload : TokenPayload) (admins : List Admin)
    (e : HTTPError) (h : claims_check payload admins = Except.error e) :
    e.statusCode = 401 := by
  unfold claims_check at h
  split at h
  · unfold lookup_admin at h
    split at h
    · cases h; rfl
    · cases h
  · cases h; rfl

/-- C1: token validation (get_current_user) fails with status 401
Unauthorized for every token whose signature is invalid, every expired
token, every token missing the sub or the id claim, every token issued
with the 30 minute expiry window and validated 31 or more minutes after
issuance, and every token whose id claim does not resolve to a stored
admin; moreover every failure of get_current_user carries status 401,
never 404 NotFound. -/
theorem c1_get_current_user_unauthorized :
    (∀ t now admins, t.sigValid = false →
      errStatus (get_current_user t now admins) = some 401) ∧
    (∀ t now admins, t.payload.exp < now →
      errStatus (get_current_user t now admins) = some 401) ∧
    (∀ t now admins, t.payload.sub = none ∨ t.payload.idClaim = none →
      errStatus (get_current_user t now admins) = some 401) ∧
    (∀ name uid issuedAt m admins, 31 ≤ m →
      errStatus (get_current_user
        { payload := create_access_token name uid issuedAt, sigValid := true }
        (issuedAt + 60 * m) admins) = some 401) ∧
    (∀ t now admins uid, t.payload.idClaim = some uid →
      admins.find? (fun a => a.id == uid) = none →
      errStatus (get_current_user t now admins) = some 401) ∧
    (∀ t now admins e, get_current_user t now admins = Except.error e →
      e.statusCode = 401) := by
  refine ⟨?_, ?_, ?_, ?_, ?_, ?_⟩
  · intro t now admins h
    simp [get_current_user, jwt_decode, h, errStatus]
  · intro t now admins h
    cases hs : t.sigValid with
    | false => simp [get_current_user, jwt_decode, hs, errStatus]
    | true => simp [get_current_user, jwt_decode, hs, h, errStatus]
  · intro t now admins h
    unfold get_current_user
    cases hd : jwt_decode t now with
    | error jerr => simp [errStatus]
    | ok p =>
      have hp := jwt_decode_ok_payload t now p hd
      subst hp
      dsimp only
      rcases h with h | h
      · simp [claims_check, h, errStatus]
      · unfold claims_check
        rw [h]
        cases t.payload.sub <;> simp [errStatus]
  · intro name uid issuedAt m admins hm
    have hexp : (create_access_token name uid issuedAt).exp < issuedAt + 60 * m := by
      simp [create_access_token, ACCESS_TOKEN_EXPIRE_MINUTES]
      omega
    simp [get_current_user, jwt_decode, hexp, errStatus]
  · intro t now admins uid hid hfind
    unfold get_current_user
    cases hd : jwt_decode t now with
    | error jerr => simp [errStatus]
    | ok p =>
      have hp := jwt_decode_ok_payload t now p hd
      subst hp
      dsimp only
      unfold claims_check
      rw [hid]
      cases t.payload.sub with
      | none => simp [errStatus]
      | some s => simp [lookup_admin, hfind, errStatus]
  · intro t now admins e h
    unfold get_current_user at h
    split at h
    · cases h; rfl
    · exact claims_check_error_401 _ _ _ h

/-- C1 witness: concrete 401 failures of get_current_user, one per failure
mode: invalid signature, validation 31 minutes after issuance with the
30 minute window, missing sub claim, expired token, and a well-formed
token whose admin id 7 is absent from the store. -/
theorem c1_witness :
    errStatus (get_current_user
      { payload := { sub := some "mayur", idClaim := some 1, exp := 1000 }, sigValid := false }
      0 []) = some 401 ∧
    errStatus (get_current_user
      { payload := create_access_token "mayur" 1 0, sigValid := true }
      (0 + 60 * 31) []) = some 401 ∧
    errStatus (get_current_user
      { payload := { sub := none, idClaim := some 1, exp := 1000 }, sigValid := true }
      0 []) = some 401 ∧
    errStatus (get_current_user
      { payload := { sub := some "mayur", idClaim := some 1, exp := 100 }, sigValid := true }
      200 []) = some 401 ∧
    errStatus (get_current_user
      { payload := { sub := some "mayur", idClaim := some 7, exp := 1000 }, sigValid := true }
      0 [{ id := 1, name := "mayur", email := "m@x.com", hashed_password := "H" }]) = some 401 :=
  ⟨c1_get_current_user_unauthorized.1 _ 0 [] rfl,
   c1_get_current_user_unauthorized.2.2.2.1 "mayur" 1 0 31 [] (by decide),
   c1_get_current_user_unauthorized.2.2.1 _ 0 [] (Or.inl rfl),
   c1_get_current_user_unauthorized.2.1 _ 200 [] (by decide),
   c1_get_current_user_unauthorized.2.2.2.2.1 _ 0 _ 7 rfl (by decide)⟩

/-- C7: authenticate_admin behaves identically in its two failure cases.
For every store state, a lookup name that matches no stored admin and a
lookup name that matches a stored admin whose password check fails
produce the same observable result, none, with no distinguishing signal. -/
theorem c7_authenticate_fails_closed :
    ∀ (admins : List Admin) (name1 pw1 name2 pw2 : String) (u : Admin)
      (verify : String → String → Bool),
      admins.find? (fun a => a.name == name1) = none →
      admins.find? (fun a => a.name == name2) = some u →
      verify pw2 u.hashed_password = false →
      authenticate_admin admins name1 pw1 verify = none ∧
      authenticate_admin admins name2 pw2 verify = none ∧
      authenticate_admin admins name1 pw1 verify =
        authenticate_admin admins name2 pw2 verify := by
  intro admins name1 pw1 name2 pw2 u verify h1 h2 hv
  unfold authenticate_admin
  rw [h1, h2]
  simp [hv]

/-- C7 witness: with the single stored admin mayur, an unknown name with
any password and the known name with a failing password check both
return none. -/
theorem c7_witness :
    authenticate_admin [{ id := 1, name := "mayur", email := "m@x.com", hashed_password := "H" }]
      "bob" "anything" (fun _ _ => false) = none ∧
    authenticate_admin [{ id := 1, name := "mayur", email := "m@x.com", hashed_password := "H" }]
      "mayur" "wrongpw" (fun _ _ => false) = none :=
  have h := c7_authenticate_fails_closed
    [{ id := 1, name := "mayur", email := "m@x.com", hashed_password := "H" }]
    "bob" "anything" "mayur" "wrongpw"
    { id := 1, name := "mayur", email := "m@x.com", hashed_password := "H" }
    (fun _ _ => false) (by decide) (by decide) rfl
  ⟨h.1, h.2.1⟩

/-- C10: for every password p, verify_password accepts p against
hash_password of p. Both functions apply the same SHA-256 condensation
branch exactly when the UTF-8 encoding of p exceeds 72 bytes, so under
the bcrypt contract (verification succeeds on inputs within its 72 byte
input bound) and the digest contract (its output fits in 72 bytes),
every password, of any length, round-trips. -/
theorem c10_password_roundtrip :
    ∀ (bcryptHash : String → String) (bcryptVerify : String → String → Bool)
      (sha256hex : String → String),
      (∀ s, s.utf8ByteSize ≤ 72 → bcryptVerify s (bcryptHash s) = true) →
      (∀ s, (sha256hex s).utf8ByteSize ≤ 72) →
      ∀ p, verify_password bcryptVerify sha256hex p
        (hash_password bcryptHash sha256hex p) = true := by
  intro bh bv sh hbv hsh p
  unfold verify_password hash_password
  by_cases h : 72 < p.utf8ByteSize
  · simp only [if_pos h]
    exact hbv _ (hsh p)
  · simp only [if_neg h]
    exact hbv _ (Nat.le_of_not_lt h)

/-- C10 witness: a concrete instantiation of the abstract primitives
round-trips the password secret1. -/
theorem c10_witness :
    verify_password (fun s hs => s == hs) (fun _ => "") "secret1"
      (hash_password (fun s => s) (fun _ => "") "secret1") = true :=
  c10_password_roundtrip (fun s => s) (fun s hs => s == hs) (fun _ => "")
    (fun s _ => by simp)
    (fun s => (by decide : ("" : String).utf8ByteSize ≤ 72)) "secret1"

/-- C8: under the string id-scheme, whenever the maximal existing id is
the letter M followed by a digit string encoding n, the generated id is
M followed by n plus one, zero-padded to five digits. -/
theorem c8_generate_employee_id_max_increment :
    ∀ (ids : List String) (m : String) (n : Nat),
      maxOfIds ids = some m →
      m.data.head? = some 'M' →
      pyInt (String.mk (m.data.drop 1)) = some n →
      generate_employee_id ids = some ("M" ++ zeroPad5 (n + 1)) := by
  intro ids m n hmax hM hparse
  unfold generate_employee_id
  rw [hmax]
  dsimp only
  rw [hparse]
  rfl

/-- C8 witness: with existing ids M00001, M00003, M00002 the maximal id
is M00003 and the generated id is M00004. -/
theorem c8_witness :
    generate_employee_id ["M00001", "M00003", "M00002"] = some "M00004" := by
  have h := c8_generate_employee_id_max_increment ["M00001", "M00003", "M00002"] "M00003" 3
    (by decide) (by decide) (by decide)
  rw [h]
  decide

/-- C2 (amended): for every create request accepted by create_employee the
returned salary satisfies the strict bounds 10000 < salary < 500000, and
every request with salary at most 10000 or at least 500000 (the claimed
inclusive bounds themselves included) is rejected by validation before
any row is persisted, leaving the table unchanged. -/
theorem c2_create_salary_strict_range :
    ∀ (db : DB) (r : EmployeeRequest),
      (∀ db2 e, create_employee db r = CreateOutcome.ok db2 e →
        10000 < e.salary ∧ e.salary < 500000) ∧
      (r.salary ≤ 10000 ∨ 500000 ≤ r.salary →
        create_employee db r = CreateOutcome.validationError db) := by
  intro db r
  constructor
  · intro db2 e h
    unfold create_employee at h
    split at h
    · cases h
    · rename_i hval
      split at h
      · cases h
      · split at h
        · cases h
        · cases h
          dsimp only
          have hv : validEmployeeRequest r = true := by
            cases hvb : validEmployeeRequest r
            · exact absurd hvb hval
            · rfl
          unfold validEmployeeRequest at hv
          simp at hv
          omega
  · intro hs
    have hv : validEmployeeRequest r = false := by
      cases hvb : validEmployeeRequest r with
      | false => rfl
      | true =>
        exfalso
        unfold validEmployeeRequest at hvb
        simp at hvb
        omega
    unfold create_employee
    simp [hv]

/-- C2 counterexample: the claimed inclusive bounds are not attainable.
Create requests with salary exactly 10000 and exactly 500000, valid in
every other field, are both rejected by validation, refuting the claim
that both bounds are attainable. -/
theorem c2_counterexample_bounds_rejected :
    create_employee dbEmpty { ashaReq with salary := 10000 } =
      CreateOutcome.validationError dbEmpty ∧
    create_employee dbEmpty { ashaReq with salary := 500000 } =
      CreateOutcome.validationError dbEmpty := by
  decide

/-- C2 witness: a committed create with salary 60000 lies strictly inside
the bounds, and a request with salary 9000 is rejected by validation
with the table unchanged. -/
theorem c2_witness :
    ((10000 : Int) < 60000 ∧ (60000 : Int) < 500000) ∧
    create_employee dbEmpty { ashaReq with salary := 9000 } =
      CreateOutcome.validationError dbEmpty :=
  ⟨(c2_create_salary_strict_range dbEmpty ashaReq).1 dbAsha ashaRow (by decide),
   (c2_create_salary_strict_range dbEmpty { ashaReq with salary := 9000 }).2
     (Or.inl (by decide))⟩

/-- C3 (amended): a create request whose email matches a live employee
fails with the explicit 400 Conflict-class rejection and leaves the table
unchanged; a create request whose phone_no matches a live employee (with
a fresh email) fails at commit with an uncaught database integrity error,
an HTTP 500 that is not Conflict-class, also leaving the table unchanged.
In both cases the second of two creates sharing the unique field is the
one that fails. -/
theorem c3_create_duplicate_email_conflict_phone_integrity :
    ∀ (db : DB) (r : EmployeeRequest),
      validEmployeeRequest r = true →
      ((∃ e ∈ db.employees, e.email = r.email) →
        create_employee db r = CreateOutcome.conflictEmail db ∧
        isConflictClass (CreateOutcome.conflictEmail db).statusCode = true) ∧
      ((∀ e ∈ db.employees, e.email ≠ r.email) →
        (∃ e ∈ db.employees, e.phone_no = r.phone_no) →
        create_employee db r = CreateOutcome.integrityError db ∧
        isConflictClass (CreateOutcome.integrityError db).statusCode = false) := by
  intro db r hval
  constructor
  · intro hdup
    refine ⟨?_, rfl⟩
    have hany : db.employees.any (fun e => e.email == r.email) = true := by
      rcases hdup with ⟨e, he, heq⟩
      simp [List.any_eq_true]
      exact ⟨e, he, heq⟩
    unfold create_employee
    simp [hval, hany]
  · intro hnodup hphone
    refine ⟨?_, rfl⟩
    have hanyE : db.employees.any (fun e => e.email == r.email) = false := by
      simp [List.any_eq_false]
      intro e he
      exact hnodup e he
    have hanyP : db.employees.any (fun e => e.phone_no == r.phone_no) = true := by
      rcases hphone with ⟨e, he, heq⟩
      simp [List.any_eq_true]
      exact ⟨e, he, heq⟩
    unfold create_employee
    simp [hval, hanyE, hanyP]

/-- C3 counterexample: duplicating the phone number of the live row for
Asha does not produce a Conflict-class error; the create fails with the
uncaught integrity error, whose status 500 is not Conflict-class. -/
theorem c3_counterexample_phone_not_conflict :
    create_employee dbAsha raviPhoneReq = CreateOutcome.integrityError dbAsha ∧
    isConflictClass (create_employee dbAsha raviPhoneReq).statusCode = false := by
  decide

/-- C3 witness: duplicating the email of the live row for Asha fails with
the 400 Conflict-class rejection and the table is unchanged. -/
theorem c3_witness :
    create_employee dbAsha raviEmailReq = CreateOutcome.conflictEmail dbAsha :=
  ((c3_create_duplicate_email_conflict_phone_integrity dbAsha raviEmailReq (by decide)).1
    ⟨ashaRow, by simp [dbAsha], rfl⟩).1

/-- C4 (amended): update_employee fails with NotFound when the target id
is absent; a successful update replaces every field of the target row
with the request values (full replace, not patch); request validation is
the same validEmployeeRequest check as create; a new phone_no duplicating
a different existing row fails at commit with the uncaught database
integrity error; a new email duplicating a different existing row is not
rejected. -/
theorem c4_update_spec :
    ∀ (db : DB) (id : Int) (r : EmployeeRequest),
      (validEmployeeRequest r = false →
        update_employee db id r = UpdateOutcome.validationError db) ∧
      (validEmployeeRequest r = true →
        db.employees.find? (fun e => e.id == id) = none →
        update_employee db id r = UpdateOutcome.notFound db) ∧
      (∀ db2 e2, update_employee db id r = UpdateOutcome.ok db2 e2 →
        e2.name = r.name ∧ e2.designation = r.designation ∧ e2.salary = r.salary ∧
        e2.phone_no = r.phone_no ∧ e2.address = r.address ∧ e2.email = r.email ∧
        e2.is_active = r.is_active) ∧
      (validEmployeeRequest r = true →
        (∃ emp, db.employees.find? (fun e => e.id == id) = some emp) →
        (∃ e ∈ db.employees, e.id ≠ id ∧ e.phone_no = r.phone_no) →
        update_employee db id r = UpdateOutcome.integrityError db) := by
  intro db id r
  refine ⟨?_, ?_, ?_, ?_⟩
  · intro hv
    unfold update_employee
    simp [hv]
  · intro hv hfind
    unfold update_employee
    simp [hv, hfind]
  · intro db2 e2 h
    unfold update_employee at h
    split at h
    · cases h
    · split at h
      · cases h
      · split at h
        · cases h
        · cases h
          dsimp only
          exact ⟨rfl, rfl, rfl, rfl, rfl, rfl, rfl⟩
  · intro hv hfound hdup
    rcases hfound with ⟨emp, hemp⟩
    have hsc : salaryCheckConstraint r.salary = true := by
      unfold validEmployeeRequest at hv
      simp at hv
      unfold salaryCheckConstraint
      simp
      omega
    have hany : db.employees.any (fun e => e.id != id && e.phone_no == r.phone_no) = true := by
      rcases hdup with ⟨e, he, hne, heq⟩
      simp [List.any_eq_true]
      exact ⟨e, he, hne, heq⟩
    unfold update_employee
    simp [hv, hemp, hany]

/-- C4 counterexample: updating row 2 so its email duplicates the email
of row 1 is not rejected. The update succeeds and afterwards two live
rows share the email, refuting the claim that duplicate-email updates
are rejected. -/
theorem c4_counterexample_duplicate_email_accepted :
    update_employee dbTwo 2 raviUpdateDupEmail =
      UpdateOutcome.ok { employees := [ashaRow, raviRowDupEmail], nextId := 3 } raviRowDupEmail ∧
    ((({ employees := [ashaRow, raviRowDupEmail], nextId := 3 } : DB)).employees.filter
      (fun e => e.email == "asha@x.com")).length = 2 := by
  decide

/-- C4 witness: an update targeting the absent id 99 fails with
NotFound and the table is unchanged. -/
theorem c4_witness :
    update_employee dbAsha 99 ashaReq = UpdateOutcome.notFound dbAsha :=
  (c4_update_spec dbAsha 99 ashaReq).2.1 (by decide) (by decide)

/-- C5: the outcome of create_employee, including the committed table
state and the response, is identical for every outcome of the welcome
email path: content generation or transport failures neither roll back
nor fail the creation, and the created row stays committed and visible
in the resulting table. -/
theorem c5_create_independent_of_welcome_email :
    ∀ (db : DB) (r : EmployeeRequest) (g1 g2 : Except String String)
      (s1 s2 : Except String Unit),
      (create_then_notify db r g1 s1).1 = (create_then_notify db r g2 s2).1 ∧
      (∀ db2 e, create_employee db r = CreateOutcome.ok db2 e →
        (create_then_notify db r g1 s1).1 = CreateOutcome.ok db2 e ∧ e ∈ db2.employees) := by
  intro db r g1 g2 s1 s2
  constructor
  · unfold create_then_notify
    cases create_employee db r <;> rfl
  · intro db2 e h
    constructor
    · unfold create_then_notify
      rw [h]
    · unfold create_employee at h
      split at h
      · cases h
      · split at h
        · cases h
        · split at h
          · cases h
          · cases h
            simp

/-- C5 witness: with both the generation call and the transport call
failing, the create of ashaReq still commits the row for Asha and the
row is in the resulting table. -/
theorem c5_witness :
    (create_then_notify dbEmpty ashaReq (Except.error "generation down")
        (Except.error "smtp down")).1 = CreateOutcome.ok dbAsha ashaRow ∧
    ashaRow ∈ dbAsha.employees :=
  (c5_create_independent_of_welcome_email dbEmpty ashaReq (Except.error "generation down")
    (Except.ok "body") (Except.error "smtp down") (Except.ok ())).2 dbAsha ashaRow (by decide)

/-- C6: once bulk content generation succeeds, a transport attempt is
made for every recipient exactly once, whatever subset of recipients
fail (the per-recipient failure function is universally quantified), and
the synchronous response of send_bulk_email never depends on the
transport outcomes, so no per-recipient failure is surfaced to the
caller or retried. -/
theorem c6_bulk_send_attempts_all_recipients :
    (∀ (sendOutcome : String → Except String Unit) (subject instruction body : String)
      (emps : List Employee),
      (background_bulk_task (Except.ok body) sendOutcome subject instruction emps).1 =
        ExtCall.genCall instruction :: emps.map (fun e => ExtCall.sendCall e.email subject)) ∧
    (∀ (db : DB) (admin : Option Admin) (g : Except String String)
      (s1 s2 : String → Except String Unit) (subject instruction : String),
      (run_send_bulk_email db admin g s1 subject instruction).1 =
        (run_send_bulk_email db admin g s2 subject instruction).1) := by
  constructor
  · intro s subject instruction body emps
    unfold background_bulk_task
    dsimp only
    congr 1
    induction emps with
    | nil => rfl
    | cons emp rest ih =>
      unfold bulk_send_loop
      cases s emp.email <;> simp [ih]
  · intro db admin g s1 s2 subject instruction
    unfold run_send_bulk_email
    dsimp only
    cases hb : (send_bulk_email db admin).1 <;> simp [hb]

/-- C9: when no stored employee has is_active true, send_bulk_email
returns the NotFound response, schedules no background work, and the
full run makes no content-generation call and no mail-transport call. -/
theorem c9_bulk_email_no_active :
    ∀ (db : DB) (a : Admin) (g : Except String String)
      (s : String → Except String Unit) (subject instruction : String),
      (∀ e ∈ db.employees, e.is_active = false) →
      send_bulk_email db (some a) = (BulkResponse.notFound, []) ∧
      run_send_bulk_email db (some a) g s subject instruction =
        (BulkResponse.notFound, ([], [])) := by
  intro db a g s subject instruction h
  have hfil : db.employees.filter (fun e => e.is_active) = [] := by
    rw [List.filter_eq_nil_iff]
    intro e he
    simp [h e he]
  have h1 : send_bulk_email db (some a) = (BulkResponse.notFound, []) := by
    unfold send_bulk_email
    simp [hfil]
  refine ⟨h1, ?_⟩
  unfold run_send_bulk_email
  rw [h1]

/-- C9 witness: with a single inactive employee stored, the bulk-email
run returns NotFound with an empty call trace. -/
theorem c9_witness :
    run_send_bulk_email { employees := [inactiveRow], nextId := 2 } (some mayurAdmin)
      (Except.ok "body") (fun _ => Except.ok ()) "Subject" "Instruction" =
      (BulkResponse.notFound, ([], [])) :=
  (c9_bulk_email_no_active { employees := [inactiveRow], nextId := 2 } mayurAdmin
    (Except.ok "body") (fun _ => Except.ok ()) "Subject" "Instruction" (by decide)).2

end MailAgent
